import Mathlib

/-!
Verification of the geometric core of crystalpy: the vector algebra used by
the diffraction setup (Rodrigues rotation, angles) and the methods of
DiffractionSetupAbstract (normalBragg, incomingPhotonDirection,
deviationOfIncomingPhoton, equality, toDictionary, getK0).

The Vector and Photon collaborator classes are not part of the sources under
verification, so they are modelled from the specification; the methods of
DiffractionSetupAbstract are translated line by line from
src/crystalpy/diffraction/DiffractionSetupAbstract.py.
-/

namespace Crystalpy

noncomputable section

/-- Modelled from the spec: crystalpy.util.Vector, an immutable 3-component
real vector in a right-handed Cartesian frame. -/
structure Vector where
  x : ℝ
  y : ℝ
  z : ℝ

attribute [ext] Vector

/-- Modelled from the spec: scalar multiplication, returns a new vector. -/
def Vector.scalarMultiplication (v : Vector) (k : ℝ) : Vector :=
  ⟨v.x * k, v.y * k, v.z * k⟩

/-- Modelled from the spec: componentwise addition. -/
def Vector.addVector (u v : Vector) : Vector :=
  ⟨u.x + v.x, u.y + v.y, u.z + v.z⟩

/-- Modelled from the spec: dot product. -/
def Vector.scalarProduct (u v : Vector) : ℝ :=
  u.x * v.x + u.y * v.y + u.z * v.z

/-- Modelled from the spec: right-handed cross product. -/
def Vector.crossProduct (u v : Vector) : Vector :=
  ⟨u.y * v.z - u.z * v.y, u.z * v.x - u.x * v.z, u.x * v.y - u.y * v.x⟩

/-- Modelled from the spec: Euclidean norm. -/
def Vector.norm (v : Vector) : ℝ :=
  Real.sqrt (v.scalarProduct v)

/-- Modelled from the spec: scaling by the inverse norm; undefined on the
zero vector (in this embedding division by zero yields zero). -/
def Vector.getNormalizedVector (v : Vector) : Vector :=
  v.scalarMultiplication (1 / v.norm)

/-- Modelled from the spec: unsigned angle between two vectors via the
inverse cosine of the dot product over the product of norms, with the
cosine argument clamped to the interval from -1 to 1. -/
def Vector.angle (u v : Vector) : ℝ :=
  Real.arccos (max (-1) (min 1 (u.scalarProduct v / (u.norm * v.norm))))

/-- Modelled from the spec: Rodrigues rotation of v around an axis by a
given angle in radians, right-hand rule; the axis is normalized
internally. -/
def Vector.rotateAroundAxis (v axis : Vector) (angle : ℝ) : Vector :=
  let n := axis.getNormalizedVector
  ((v.scalarMultiplication (Real.cos angle)).addVector
      ((n.crossProduct v).scalarMultiplication (Real.sin angle))).addVector
    (n.scalarMultiplication (n.scalarProduct v * (1 - Real.cos angle)))

/-- Modelled from the spec: crystalpy.util.Photon, carrying an energy in eV
and a direction that is stored normalized. -/
structure Photon where
  energy : ℝ
  unitDirectionVector : Vector

/-- Modelled from the spec: the Photon constructor normalizes the supplied
direction before storing it. -/
def Photon.make (energy : ℝ) (direction : Vector) : Photon :=
  ⟨energy, direction.getNormalizedVector⟩

/-- Modelled from the spec: a geometry type tag, opaque to this core beyond
carrying a human-readable descriptive string. -/
structure GeometryType where
  description : String

/-- Error kinds raised by the core; notImplementedError models the Python
NotImplementedError raised by the abstract structure-factor methods. -/
inductive CrystalError where
  | notImplementedError

/-- The stored configuration fields of DiffractionSetupAbstract, named after
the private attributes assigned in the constructor. -/
structure DiffractionSetupAbstract where
  _geometry_type : GeometryType
  _crystal_name : String
  _thickness : ℝ
  _miller_h : ℤ
  _miller_k : ℤ
  _miller_l : ℤ
  _asymmetry_angle : ℝ
  _azimuthal_angle : ℝ
  _debyeWaller : ℝ

/-- Abstract method angleBragg: raises NotImplementedError on the base. -/
def DiffractionSetupAbstract.angleBragg (_s : DiffractionSetupAbstract)
    (_energy : ℝ) : Except CrystalError ℝ :=
  Except.error CrystalError.notImplementedError

/-- Abstract method F0: raises NotImplementedError on the base. -/
def DiffractionSetupAbstract.F0 (_s : DiffractionSetupAbstract)
    (_energy : ℝ) : Except CrystalError ℂ :=
  Except.error CrystalError.notImplementedError

/-- Abstract method FH: raises NotImplementedError on the base. -/
def DiffractionSetupAbstract.FH (_s : DiffractionSetupAbstract)
    (_energy : ℝ) : Except CrystalError ℂ :=
  Except.error CrystalError.notImplementedError

/-- Abstract method FH_bar: raises NotImplementedError on the base. -/
def DiffractionSetupAbstract.FH_bar (_s : DiffractionSetupAbstract)
    (_energy : ℝ) : Except CrystalError ℂ :=
  Except.error CrystalError.notImplementedError

/-- Abstract method dSpacing: raises NotImplementedError on the base. -/
def DiffractionSetupAbstract.dSpacing (_s : DiffractionSetupAbstract) :
    Except CrystalError ℝ :=
  Except.error CrystalError.notImplementedError

/-- Abstract method unitcellVolume: raises NotImplementedError on the
base. -/
def DiffractionSetupAbstract.unitcellVolume (_s : DiffractionSetupAbstract) :
    Except CrystalError ℝ :=
  Except.error CrystalError.notImplementedError

/-- A diffraction setup with a concrete structure-factor collaborator: the
nine stored fields of DiffractionSetupAbstract together with the values the
collaborator subclass supplies, namely dSpacing (in angstrom) and the
Bragg angle as a function of energy (in radians). -/
structure DiffractionSetup where
  _geometry_type : GeometryType
  _crystal_name : String
  _thickness : ℝ
  _miller_h : ℤ
  _miller_k : ℤ
  _miller_l : ℤ
  _asymmetry_angle : ℝ
  _azimuthal_angle : ℝ
  _debyeWaller : ℝ
  dSpacing : ℝ
  angleBragg : ℝ → ℝ

/-- Getter geometryType. -/
def DiffractionSetup.geometryType (s : DiffractionSetup) : GeometryType :=
  s._geometry_type

/-- Getter crystalName. -/
def DiffractionSetup.crystalName (s : DiffractionSetup) : String :=
  s._crystal_name

/-- Getter thickness. -/
def DiffractionSetup.thickness (s : DiffractionSetup) : ℝ :=
  s._thickness

/-- Getter millerH. -/
def DiffractionSetup.millerH (s : DiffractionSetup) : ℤ :=
  s._miller_h

/-- Getter millerK. -/
def DiffractionSetup.millerK (s : DiffractionSetup) : ℤ :=
  s._miller_k

/-- Getter millerL. -/
def DiffractionSetup.millerL (s : DiffractionSetup) : ℤ :=
  s._miller_l

/-- Getter asymmetryAngle. -/
def DiffractionSetup.asymmetryAngle (s : DiffractionSetup) : ℝ :=
  s._asymmetry_angle

/-- Getter azimuthalAngle. -/
def DiffractionSetup.azimuthalAngle (s : DiffractionSetup) : ℝ :=
  s._azimuthal_angle

/-- normalSurface: the surface normal, the vector 0 0 1 by definition. -/
def DiffractionSetup.normalSurface (_s : DiffractionSetup) : Vector :=
  ⟨0, 0, 1⟩

/-- parallelSurface: the in-surface direction, the vector 0 1 0 by
definition. -/
def DiffractionSetup.parallelSurface (_s : DiffractionSetup) : Vector :=
  ⟨0, 1, 0⟩

/-- normalBragg: the reciprocal-lattice vector B_H. Starts from the surface
normal scaled by 2 pi over the d-spacing converted from angstrom to meters,
rotates it by minus the asymmetry angle around parallelSurface cross
normalSurface, then by the azimuthal angle around the z axis; optionally
normalized. -/
def DiffractionSetup.normalBragg (s : DiffractionSetup)
    (return_normalized : Bool) : Vector :=
  let g_modulus := 2 * Real.pi / (s.dSpacing * 1e-10)
  let temp_normal_bragg := (Vector.mk 0 0 1).scalarMultiplication g_modulus
  let alpha_x := s.asymmetryAngle
  let axis := s.parallelSurface.crossProduct s.normalSurface
  let temp2 := temp_normal_bragg.rotateAroundAxis axis (-alpha_x)
  let phi := s.azimuthalAngle
  let normal_bragg := temp2.rotateAroundAxis ⟨0, 0, 1⟩ phi
  if return_normalized then normal_bragg.getNormalizedVector else normal_bragg

/-- toDictionary: the ordered key-value listing of the setup. The fstr
argument stands for the Python builtin str applied to a float, which this
embedding leaves uninterpreted. -/
def DiffractionSetup.toDictionary (s : DiffractionSetup)
    (fstr : ℝ → String) : List (String × String) :=
  [("Geometry Type", s.geometryType.description),
   ("Crystal Name", s.crystalName),
   ("Thickness", fstr s.thickness),
   ("Miller indices (h,k,l)",
     "(" ++ toString s.millerH ++ "," ++ toString s.millerK ++ ","
         ++ toString s.millerL ++ ")"),
   ("Asymmetry Angle", fstr s.asymmetryAngle),
   ("Azimuthal Angle", fstr s.azimuthalAngle)]

/-- incomingPhotonDirection: minus the Bragg normal, normalized, rotated
around parallelSurface cross normalSurface by pi over 2 minus the Bragg
angle at the given energy minus the deviation. -/
def DiffractionSetup.incomingPhotonDirection (s : DiffractionSetup)
    (energy deviation : ℝ) : Vector :=
  let minusBH := ((s.normalBragg false).scalarMultiplication (-1)).getNormalizedVector
  let axis := s.parallelSurface.crossProduct s.normalSurface
  minusBH.rotateAroundAxis axis (Real.pi / 2 - s.angleBragg energy - deviation)

/-- getK0: the incoming photon direction at zero deviation. -/
def DiffractionSetup.getK0 (s : DiffractionSetup) (energy : ℝ) : Vector :=
  s.incomingPhotonDirection energy 0.0

/-- deviationOfIncomingPhoton: the angle between the photon direction and
the Bragg normal, minus the Bragg angle at the photon energy, minus pi
over 2. -/
def DiffractionSetup.deviationOfIncomingPhoton (s : DiffractionSetup)
    (photon_in : Photon) : ℝ :=
  let total_angle := photon_in.unitDirectionVector.angle (s.normalBragg false)
  let angle_bragg := s.angleBragg photon_in.energy
  total_angle - angle_bragg - Real.pi / 2

/-- The equality test of DiffractionSetupAbstract: field-by-field comparison
of geometry type, crystal name, thickness, the three Miller indices, the
asymmetry angle and the azimuthal angle; the Debye-Waller factor is not
compared. -/
def DiffractionSetup.setupEq (s candidate : DiffractionSetup) : Prop :=
  s._geometry_type = candidate.geometryType ∧
  s._crystal_name = candidate.crystalName ∧
  s._thickness = candidate.thickness ∧
  s._miller_h = candidate.millerH ∧
  s._miller_k = candidate.millerK ∧
  s._miller_l = candidate.millerL ∧
  s._asymmetry_angle = candidate.asymmetryAngle ∧
  s._azimuthal_angle = candidate.azimuthalAngle

/-- The inequality test of DiffractionSetupAbstract: the negation of the
equality test. -/
def DiffractionSetup.setupNe (s candidate : DiffractionSetup) : Prop :=
  ¬ s.setupEq candidate

/-- A concrete setup used to instantiate universally quantified theorems:
silicon-like parameters, zero asymmetry and azimuthal angles, unit
d-spacing and a collaborator whose Bragg angle is identically zero. -/
def exampleSetup : DiffractionSetup :=
  ⟨⟨"Bragg diffraction"⟩, "Si", 1e-6, 1, 1, 1, 0, 0, 1, 1, fun _ => 0⟩

/-- A setup with both the asymmetry angle and the azimuthal angle equal to
pi over 2, unit d-spacing and a collaborator whose Bragg angle is
identically zero. -/
def tiltedSetup : DiffractionSetup :=
  ⟨⟨"Bragg diffraction"⟩, "Si", 1e-6, 1, 1, 1, Real.pi / 2, Real.pi / 2, 1,
    1, fun _ => 0⟩

/-- A setup equal to exampleSetup in the eight compared fields but with a
different Debye-Waller factor. -/
def debyeSetup : DiffractionSetup :=
  ⟨⟨"Bragg diffraction"⟩, "Si", 1e-6, 1, 1, 1, 0, 0, 2, 1, fun _ => 0⟩

theorem Vector.norm_nonneg (v : Vector) : 0 ≤ v.norm :=
  Real.sqrt_nonneg _

theorem xAxis_normalized : (Vector.mk 1 0 0).getNormalizedVector = ⟨1, 0, 0⟩ := by
  ext <;>
    simp [Vector.getNormalizedVector, Vector.scalarMultiplication, Vector.norm,
      Vector.scalarProduct]

theorem zAxis_normalized : (Vector.mk 0 0 1).getNormalizedVector = ⟨0, 0, 1⟩ := by
  ext <;>
    simp [Vector.getNormalizedVector, Vector.scalarMultiplication, Vector.norm,
      Vector.scalarProduct]

theorem rotateAroundAxis_xAxis (v : Vector) (t : ℝ) :
    v.rotateAroundAxis ⟨1, 0, 0⟩ t =
      ⟨v.x, v.y * Real.cos t - v.z * Real.sin t,
        v.z * Real.cos t + v.y * Real.sin t⟩ := by
  ext <;>
    simp [Vector.rotateAroundAxis, xAxis_normalized, Vector.crossProduct,
      Vector.scalarProduct, Vector.scalarMultiplication, Vector.addVector] <;>
    ring

theorem rotateAroundAxis_zAxis (v : Vector) (t : ℝ) :
    v.rotateAroundAxis ⟨0, 0, 1⟩ t =
      ⟨v.x * Real.cos t - v.y * Real.sin t,
        v.y * Real.cos t + v.x * Real.sin t, v.z⟩ := by
  ext <;>
    simp [Vector.rotateAroundAxis, zAxis_normalized, Vector.crossProduct,
      Vector.scalarProduct, Vector.scalarMultiplication, Vector.addVector] <;>
    ring

theorem norm_rotateAroundAxis_xAxis (v : Vector) (t : ℝ) :
    (v.rotateAroundAxis ⟨1, 0, 0⟩ t).norm = v.norm := by
  rw [rotateAroundAxis_xAxis]
  unfold Vector.norm Vector.scalarProduct
  congr 1
  linear_combination (v.y * v.y + v.z * v.z) * Real.sin_sq_add_cos_sq t

theorem norm_scalarMultiplication (v : Vector) (k : ℝ) :
    (v.scalarMultiplication k).norm = |k| * v.norm := by
  unfold Vector.norm Vector.scalarProduct Vector.scalarMultiplication
  rw [show v.x * k * (v.x * k) + v.y * k * (v.y * k) + v.z * k * (v.z * k) =
        k ^ 2 * (v.x * v.x + v.y * v.y + v.z * v.z) from by ring,
    Real.sqrt_mul (sq_nonneg k), Real.sqrt_sq_eq_abs]

theorem norm_getNormalizedVector (v : Vector) (h : v.norm ≠ 0) :
    v.getNormalizedVector.norm = 1 := by
  unfold Vector.getNormalizedVector
  rw [norm_scalarMultiplication, one_div, abs_inv,
    abs_of_nonneg v.norm_nonneg, inv_mul_cancel₀ h]

theorem getNormalizedVector_of_norm_one (v : Vector) (h : v.norm = 1) :
    v.getNormalizedVector = v := by
  unfold Vector.getNormalizedVector Vector.scalarMultiplication
  rw [h]
  ext <;> simp

theorem Photon.unitDirectionVector_make (energy : ℝ) (d : Vector) :
    (Photon.make energy d).unitDirectionVector = d.getNormalizedVector :=
  rfl

theorem Photon.energy_make (energy : ℝ) (d : Vector) :
    (Photon.make energy d).energy = energy :=
  rfl

theorem cross_parallel_normal (s : DiffractionSetup) :
    s.parallelSurface.crossProduct s.normalSurface = ⟨1, 0, 0⟩ := by
  ext <;>
    simp [DiffractionSetup.parallelSurface, DiffractionSetup.normalSurface,
      Vector.crossProduct]

theorem normalBragg_false_eq (s : DiffractionSetup) :
    s.normalBragg false =
      ⟨-(2 * Real.pi / (s.dSpacing * 1e-10)) * Real.sin s._asymmetry_angle *
          Real.sin s._azimuthal_angle,
        2 * Real.pi / (s.dSpacing * 1e-10) * Real.sin s._asymmetry_angle *
          Real.cos s._azimuthal_angle,
        2 * Real.pi / (s.dSpacing * 1e-10) * Real.cos s._asymmetry_angle⟩ := by
  simp only [DiffractionSetup.normalBragg, cross_parallel_normal,
    rotateAroundAxis_xAxis, rotateAroundAxis_zAxis, Bool.false_eq_true,
    if_false]
  ext <;>
    simp [Vector.scalarMultiplication, DiffractionSetup.asymmetryAngle,
      DiffractionSetup.azimuthalAngle, Real.sin_neg, Real.cos_neg]

theorem norm_normalBragg_false (s : DiffractionSetup) (hd : 0 < s.dSpacing) :
    (s.normalBragg false).norm = 2 * Real.pi / (s.dSpacing * 1e-10) := by
  rw [normalBragg_false_eq]
  unfold Vector.norm Vector.scalarProduct
  have hg : 0 < 2 * Real.pi / (s.dSpacing * 1e-10) := by positivity
  rw [show
      -(2 * Real.pi / (s.dSpacing * 1e-10)) * Real.sin s._asymmetry_angle *
            Real.sin s._azimuthal_angle *
          (-(2 * Real.pi / (s.dSpacing * 1e-10)) * Real.sin s._asymmetry_angle *
            Real.sin s._azimuthal_angle) +
        2 * Real.pi / (s.dSpacing * 1e-10) * Real.sin s._asymmetry_angle *
            Real.cos s._azimuthal_angle *
          (2 * Real.pi / (s.dSpacing * 1e-10) * Real.sin s._asymmetry_angle *
            Real.cos s._azimuthal_angle) +
        2 * Real.pi / (s.dSpacing * 1e-10) * Real.cos s._asymmetry_angle *
          (2 * Real.pi / (s.dSpacing * 1e-10) * Real.cos s._asymmetry_angle) =
        (2 * Real.pi / (s.dSpacing * 1e-10)) ^ 2 from by
    linear_combination
      ((2 * Real.pi / (s.dSpacing * 1e-10)) ^ 2 *
          Real.sin s._asymmetry_angle ^ 2) *
        Real.sin_sq_add_cos_sq s._azimuthal_angle +
      (2 * Real.pi / (s.dSpacing * 1e-10)) ^ 2 *
        Real.sin_sq_add_cos_sq s._asymmetry_angle]
  exact Real.sqrt_sq hg.le

/-- Claim C2: normalBragg with return_normalized false equals the vector
obtained by scaling the vector 0 0 1 by 2 pi over the d-spacing converted
from angstrom to meters, rotating it by minus the asymmetry angle around
parallelSurface cross normalSurface, then rotating by the azimuthal angle
around the vector 0 0 1; with return_normalized true it is the normalized
version of that same vector. -/
theorem normalBragg_spec (s : DiffractionSetup) :
    s.normalBragg false =
      (((Vector.mk 0 0 1).scalarMultiplication
            (2 * Real.pi / (s.dSpacing * 1e-10))).rotateAroundAxis
          (s.parallelSurface.crossProduct s.normalSurface)
          (-s.asymmetryAngle)).rotateAroundAxis ⟨0, 0, 1⟩ s.azimuthalAngle ∧
    s.normalBragg true = (s.normalBragg false).getNormalizedVector :=
  ⟨rfl, rfl⟩

/-- Claim C3: incomingPhotonDirection equals minus the Bragg normal,
normalized, rotated around parallelSurface cross normalSurface by pi over 2
minus the Bragg angle minus the deviation, and the returned vector has unit
norm. -/
theorem incomingPhotonDirection_spec (s : DiffractionSetup)
    (energy deviation : ℝ) (hd : 0 < s.dSpacing) :
    s.incomingPhotonDirection energy deviation =
      ((s.normalBragg false).scalarMultiplication
          (-1)).getNormalizedVector.rotateAroundAxis
        (s.parallelSurface.crossProduct s.normalSurface)
        (Real.pi / 2 - s.angleBragg energy - deviation) ∧
    (s.incomingPhotonDirection energy deviation).norm = 1 := by
  refine ⟨rfl, ?_⟩
  have hne : ((s.normalBragg false).scalarMultiplication (-1)).norm ≠ 0 := by
    rw [norm_scalarMultiplication, norm_normalBragg_false s hd, abs_neg,
      abs_one, one_mul]
    positivity
  simp only [DiffractionSetup.incomingPhotonDirection]
  rw [cross_parallel_normal, norm_rotateAroundAxis_xAxis,
    norm_getNormalizedVector _ hne]

/-- Witness for claim C3 at a concrete setup, energy and deviation. -/
theorem incomingPhotonDirection_spec_witness :
    0 < exampleSetup.dSpacing ∧
    (exampleSetup.incomingPhotonDirection 8000 0.25 =
        ((exampleSetup.normalBragg false).scalarMultiplication
            (-1)).getNormalizedVector.rotateAroundAxis
          (exampleSetup.parallelSurface.crossProduct exampleSetup.normalSurface)
          (Real.pi / 2 - exampleSetup.angleBragg 8000 - 0.25) ∧
      (exampleSetup.incomingPhotonDirection 8000 0.25).norm = 1) :=
  ⟨show (0 : ℝ) < 1 by norm_num,
    incomingPhotonDirection_spec exampleSetup 8000 0.25
      (show (0 : ℝ) < 1 by norm_num)⟩

/-- Claim C4: deviationOfIncomingPhoton equals the angle between the photon
direction and the Bragg normal, minus the Bragg angle at the photon energy,
minus pi over 2. -/
theorem deviationOfIncomingPhoton_formula (s : DiffractionSetup)
    (photon_in : Photon) :
    s.deviationOfIncomingPhoton photon_in =
      photon_in.unitDirectionVector.angle (s.normalBragg false) -
        s.angleBragg photon_in.energy - Real.pi / 2 :=
  rfl

/-- Claim C5: with zero asymmetry and azimuthal angles, normalBragg is the
vector 0 0 1 scaled by 2 pi over the d-spacing in meters, hence parallel to
the vector 0 0 1 with that magnitude. -/
theorem normalBragg_zero_angles (s : DiffractionSetup)
    (ha : s._asymmetry_angle = 0) (hphi : s._azimuthal_angle = 0)
    (hd : 0 < s.dSpacing) :
    s.normalBragg false =
      (Vector.mk 0 0 1).scalarMultiplication
        (2 * Real.pi / (s.dSpacing * 1e-10)) ∧
    (s.normalBragg false).norm = 2 * Real.pi / (s.dSpacing * 1e-10) := by
  refine ⟨?_, norm_normalBragg_false s hd⟩
  rw [normalBragg_false_eq]
  ext <;> simp [ha, hphi, Vector.scalarMultiplication]

/-- Witness for claim C5 at a concrete setup. -/
theorem normalBragg_zero_angles_witness :
    exampleSetup._asymmetry_angle = 0 ∧ exampleSetup._azimuthal_angle = 0 ∧
    0 < exampleSetup.dSpacing ∧
    (exampleSetup.normalBragg false =
        (Vector.mk 0 0 1).scalarMultiplication
          (2 * Real.pi / (exampleSetup.dSpacing * 1e-10)) ∧
      (exampleSetup.normalBragg false).norm =
        2 * Real.pi / (exampleSetup.dSpacing * 1e-10)) :=
  ⟨rfl, rfl, show (0 : ℝ) < 1 by norm_num,
    normalBragg_zero_angles exampleSetup rfl rfl (show (0 : ℝ) < 1 by norm_num)⟩

/-- Claim C6: normalSurface is always exactly the vector 0 0 1 and
parallelSurface is always exactly the vector 0 1 0, for every setup. -/
theorem surface_vectors_fixed (s : DiffractionSetup) :
    s.normalSurface = ⟨0, 0, 1⟩ ∧ s.parallelSurface = ⟨0, 1, 0⟩ :=
  ⟨rfl, rfl⟩

/-- Claim C7: the equality test holds exactly when the eight compared fields
agree, the Debye-Waller factor is not among them, so two setups differing
only there compare equal, and the inequality test is the negation of the
equality test. -/
theorem setupEq_fields_and_ne (a b : DiffractionSetup) :
    (a.setupEq b ↔
      (a._geometry_type = b._geometry_type ∧
       a._crystal_name = b._crystal_name ∧
       a._thickness = b._thickness ∧
       a._miller_h = b._miller_h ∧
       a._miller_k = b._miller_k ∧
       a._miller_l = b._miller_l ∧
       a._asymmetry_angle = b._asymmetry_angle ∧
       a._azimuthal_angle = b._azimuthal_angle)) ∧
    (a.setupNe b ↔ ¬ a.setupEq b) ∧
    (exampleSetup.setupEq debyeSetup ∧
      exampleSetup._debyeWaller ≠ debyeSetup._debyeWaller) := by
  refine ⟨Iff.rfl, Iff.rfl, ⟨rfl, rfl, rfl, rfl, rfl, rfl, rfl, rfl⟩, ?_⟩
  show (1 : ℝ) ≠ 2
  norm_num

/-- Witness for claim C7 at two concrete setups differing only in the
Debye-Waller factor. -/
theorem setupEq_fields_and_ne_witness :
    (exampleSetup.setupEq debyeSetup ↔
      (exampleSetup._geometry_type = debyeSetup._geometry_type ∧
       exampleSetup._crystal_name = debyeSetup._crystal_name ∧
       exampleSetup._thickness = debyeSetup._thickness ∧
       exampleSetup._miller_h = debyeSetup._miller_h ∧
       exampleSetup._miller_k = debyeSetup._miller_k ∧
       exampleSetup._miller_l = debyeSetup._miller_l ∧
       exampleSetup._asymmetry_angle = debyeSetup._asymmetry_angle ∧
       exampleSetup._azimuthal_angle = debyeSetup._azimuthal_angle)) ∧
    (exampleSetup.setupNe debyeSetup ↔ ¬ exampleSetup.setupEq debyeSetup) ∧
    (exampleSetup.setupEq debyeSetup ∧
      exampleSetup._debyeWaller ≠ debyeSetup._debyeWaller) :=
  setupEq_fields_and_ne exampleSetup debyeSetup

/-- Claim C8: on the abstract base type, each of angleBragg, F0, FH, FH_bar,
dSpacing and unitcellVolume fails with the NotImplemented error kind, for
every argument value. -/
theorem abstract_methods_error (s : DiffractionSetupAbstract) (energy : ℝ) :
    s.angleBragg energy = Except.error CrystalError.notImplementedError ∧
    s.F0 energy = Except.error CrystalError.notImplementedError ∧
    s.FH energy = Except.error CrystalError.notImplementedError ∧
    s.FH_bar energy = Except.error CrystalError.notImplementedError ∧
    s.dSpacing = Except.error CrystalError.notImplementedError ∧
    s.unitcellVolume = Except.error CrystalError.notImplementedError :=
  ⟨rfl, rfl, rfl, rfl, rfl, rfl⟩

/-- Claim C9: toDictionary produces exactly the six listed entries, in
order, and its keys appear in exactly the listed order. -/
theorem toDictionary_entries (s : DiffractionSetup) (fstr : ℝ → String) :
    s.toDictionary fstr =
      [("Geometry Type", s._geometry_type.description),
       ("Crystal Name", s._crystal_name),
       ("Thickness", fstr s._thickness),
       ("Miller indices (h,k,l)",
         "(" ++ toString s._miller_h ++ "," ++ toString s._miller_k ++ ","
             ++ toString s._miller_l ++ ")"),
       ("Asymmetry Angle", fstr s._asymmetry_angle),
       ("Azimuthal Angle", fstr s._azimuthal_angle)] ∧
    (s.toDictionary fstr).map Prod.fst =
      ["Geometry Type", "Crystal Name", "Thickness",
       "Miller indices (h,k,l)", "Asymmetry Angle", "Azimuthal Angle"] :=
  ⟨rfl, rfl⟩

/-- Claim C10: getK0 returns exactly the incoming photon direction at zero
deviation. -/
theorem getK0_eq_incomingPhotonDirection (s : DiffractionSetup)
    (energy : ℝ) :
    s.getK0 energy = s.incomingPhotonDirection energy 0.0 :=
  rfl

/-- Counterexample to claim C1 as stated: at a setup with asymmetry angle
and azimuthal angle both equal to pi over 2, unit d-spacing and Bragg angle
identically zero, the photon built from incomingPhotonDirection at zero
deviation is reported by deviationOfIncomingPhoton as deviated by pi over 2,
far beyond the stated 1e-9 tolerance. -/
theorem roundTrip_deviation_counterexample :
    1e-9 <
      tiltedSetup.deviationOfIncomingPhoton
        (Photon.make 8000 (tiltedSetup.incomingPhotonDirection 8000 0)) := by
  have hG : (0 : ℝ) < 2 * Real.pi / 1e-10 := by positivity
  have h1 : tiltedSetup.dSpacing = 1 := rfl
  have h2 : tiltedSetup._asymmetry_angle = Real.pi / 2 := rfl
  have h3 : tiltedSetup._azimuthal_angle = Real.pi / 2 := rfl
  have hBH : tiltedSetup.normalBragg false = ⟨-(2 * Real.pi / 1e-10), 0, 0⟩ := by
    rw [normalBragg_false_eq, h1, h2, h3]
    ext <;> simp [Real.sin_pi_div_two, Real.cos_pi_div_two]
  have hminus : (tiltedSetup.normalBragg false).scalarMultiplication (-1) =
      ⟨2 * Real.pi / 1e-10, 0, 0⟩ := by
    rw [hBH]
    ext <;> simp [Vector.scalarMultiplication]
  have hnormminus : (⟨2 * Real.pi / 1e-10, 0, 0⟩ : Vector).norm =
      2 * Real.pi / 1e-10 := by
    unfold Vector.norm Vector.scalarProduct
    rw [show (2 * Real.pi / 1e-10) * (2 * Real.pi / 1e-10) +
          (0 : ℝ) * 0 + (0 : ℝ) * 0 = (2 * Real.pi / 1e-10) ^ 2 from by ring]
    exact Real.sqrt_sq hG.le
  have hnormalized : (⟨2 * Real.pi / 1e-10, 0, 0⟩ : Vector).getNormalizedVector =
      ⟨1, 0, 0⟩ := by
    unfold Vector.getNormalizedVector
    rw [hnormminus]
    ext <;> simp [Vector.scalarMultiplication]
    field_simp
  have hdir : tiltedSetup.incomingPhotonDirection 8000 0 = ⟨1, 0, 0⟩ := by
    simp only [DiffractionSetup.incomingPhotonDirection]
    rw [cross_parallel_normal, hminus, hnormalized, rotateAroundAxis_xAxis]
    ext <;> simp
  have hunit : (Photon.make 8000
      (tiltedSetup.incomingPhotonDirection 8000 0)).unitDirectionVector =
      ⟨1, 0, 0⟩ := by
    rw [Photon.unitDirectionVector_make, hdir, xAxis_normalized]
  have hnormone : (⟨1, 0, 0⟩ : Vector).norm = 1 := by
    unfold Vector.norm Vector.scalarProduct
    simp
  have hnormBH : (⟨-(2 * Real.pi / 1e-10), 0, 0⟩ : Vector).norm =
      2 * Real.pi / 1e-10 := by
    unfold Vector.norm Vector.scalarProduct
    rw [show -(2 * Real.pi / 1e-10) * -(2 * Real.pi / 1e-10) +
          (0 : ℝ) * 0 + (0 : ℝ) * 0 = (2 * Real.pi / 1e-10) ^ 2 from by ring]
    exact Real.sqrt_sq hG.le
  have hangle : (⟨1, 0, 0⟩ : Vector).angle ⟨-(2 * Real.pi / 1e-10), 0, 0⟩ =
      Real.pi := by
    unfold Vector.angle
    rw [hnormone, hnormBH]
    rw [show (⟨1, 0, 0⟩ : Vector).scalarProduct ⟨-(2 * Real.pi / 1e-10), 0, 0⟩ =
          -(2 * Real.pi / 1e-10) from by
      unfold Vector.scalarProduct
      ring]
    rw [show -(2 * Real.pi / 1e-10) / (1 * (2 * Real.pi / 1e-10)) = (-1 : ℝ) from by
      rw [one_mul, neg_div, div_self hG.ne']]
    rw [show min (1 : ℝ) (-1) = (-1 : ℝ) from by norm_num, max_self,
      Real.arccos_neg_one]
  simp only [DiffractionSetup.deviationOfIncomingPhoton]
  rw [hunit, hBH, hangle, Photon.energy_make]
  have hBragg : tiltedSetup.angleBragg 8000 = 0 := rfl
  rw [hBragg]
  have hsmall : (1e-9 : ℝ) ≤ 1.4 := by norm_num
  have hpi : (3 : ℝ) < Real.pi := Real.pi_gt_three
  linarith

/-- Claim C1, amended: for every setup with azimuthal angle zero, positive
d-spacing and Bragg angle between minus pi over 2 and pi over 2 at the
given energy, constructing a photon at that energy whose direction is
incomingPhotonDirection at zero deviation and passing it to
deviationOfIncomingPhoton returns a deviation of exactly 0. -/
theorem roundTrip_deviation_zero (s : DiffractionSetup) (energy : ℝ)
    (hphi : s._azimuthal_angle = 0) (hd : 0 < s.dSpacing)
    (hb1 : -(Real.pi / 2) ≤ s.angleBragg energy)
    (hb2 : s.angleBragg energy ≤ Real.pi / 2) :
    s.deviationOfIncomingPhoton
      (Photon.make energy (s.incomingPhotonDirection energy 0)) = 0 := by
  have hg : (0 : ℝ) < 2 * Real.pi / (s.dSpacing * 1e-10) := by positivity
  have hBH : s.normalBragg false =
      ⟨0, 2 * Real.pi / (s.dSpacing * 1e-10) * Real.sin s._asymmetry_angle,
        2 * Real.pi / (s.dSpacing * 1e-10) * Real.cos s._asymmetry_angle⟩ := by
    rw [normalBragg_false_eq, hphi]
    ext <;> simp
  have hminus : (s.normalBragg false).scalarMultiplication (-1) =
      ⟨0, -(2 * Real.pi / (s.dSpacing * 1e-10) * Real.sin s._asymmetry_angle),
        -(2 * Real.pi / (s.dSpacing * 1e-10) * Real.cos s._asymmetry_angle)⟩ := by
    rw [hBH]
    ext <;> simp [Vector.scalarMultiplication]
  have hnormminus :
      (⟨0, -(2 * Real.pi / (s.dSpacing * 1e-10) * Real.sin s._asymmetry_angle),
        -(2 * Real.pi / (s.dSpacing * 1e-10) * Real.cos s._asymmetry_angle)⟩ :
          Vector).norm = 2 * Real.pi / (s.dSpacing * 1e-10) := by
    unfold Vector.norm Vector.scalarProduct
    rw [show (0 : ℝ) * 0 +
          -(2 * Real.pi / (s.dSpacing * 1e-10) * Real.sin s._asymmetry_angle) *
            -(2 * Real.pi / (s.dSpacing * 1e-10) * Real.sin s._asymmetry_angle) +
          -(2 * Real.pi / (s.dSpacing * 1e-10) * Real.cos s._asymmetry_angle) *
            -(2 * Real.pi / (s.dSpacing * 1e-10) * Real.cos s._asymmetry_angle) =
          (2 * Real.pi / (s.dSpacing * 1e-10)) ^ 2 from by
      linear_combination (2 * Real.pi / (s.dSpacing * 1e-10)) ^ 2 *
        Real.sin_sq_add_cos_sq s._asymmetry_angle]
    exact Real.sqrt_sq hg.le
  have hnormalized :
      (⟨0, -(2 * Real.pi / (s.dSpacing * 1e-10) * Real.sin s._asymmetry_angle),
        -(2 * Real.pi / (s.dSpacing * 1e-10) * Real.cos s._asymmetry_angle)⟩ :
          Vector).getNormalizedVector =
        ⟨0, -Real.sin s._asymmetry_angle, -Real.cos s._asymmetry_angle⟩ := by
    unfold Vector.getNormalizedVector
    rw [hnormminus]
    ext <;> simp [Vector.scalarMultiplication] <;> field_simp
  have hdir : s.incomingPhotonDirection energy 0 =
      ⟨0,
        Real.cos s._asymmetry_angle *
            Real.sin (Real.pi / 2 - s.angleBragg energy - 0) -
          Real.sin s._asymmetry_angle *
            Real.cos (Real.pi / 2 - s.angleBragg energy - 0),
        -(Real.cos s._asymmetry_angle *
            Real.cos (Real.pi / 2 - s.angleBragg energy - 0)) -
          Real.sin s._asymmetry_angle *
            Real.sin (Real.pi / 2 - s.angleBragg energy - 0)⟩ := by
    simp only [DiffractionSetup.incomingPhotonDirection]
    rw [cross_parallel_normal, hminus, hnormalized, rotateAroundAxis_xAxis]
    ext <;> dsimp <;> ring
  have hdirnorm :
      (⟨0,
        Real.cos s._asymmetry_angle *
            Real.sin (Real.pi / 2 - s.angleBragg energy - 0) -
          Real.sin s._asymmetry_angle *
            Real.cos (Real.pi / 2 - s.angleBragg energy - 0),
        -(Real.cos s._asymmetry_angle *
            Real.cos (Real.pi / 2 - s.angleBragg energy - 0)) -
          Real.sin s._asymmetry_angle *
            Real.sin (Real.pi / 2 - s.angleBragg energy - 0)⟩ :
          Vector).norm = 1 := by
    unfold Vector.norm Vector.scalarProduct
    rw [show (0 : ℝ) * 0 +
          (Real.cos s._asymmetry_angle *
              Real.sin (Real.pi / 2 - s.angleBragg energy - 0) -
            Real.sin s._asymmetry_angle *
              Real.cos (Real.pi / 2 - s.angleBragg energy - 0)) *
          (Real.cos s._asymmetry_angle *
              Real.sin (Real.pi / 2 - s.angleBragg energy - 0) -
            Real.sin s._asymmetry_angle *
              Real.cos (Real.pi / 2 - s.angleBragg energy - 0)) +
          (-(Real.cos s._asymmetry_angle *
              Real.cos (Real.pi / 2 - s.angleBragg energy - 0)) -
            Real.sin s._asymmetry_angle *
              Real.sin (Real.pi / 2 - s.angleBragg energy - 0)) *
          (-(Real.cos s._asymmetry_angle *
              Real.cos (Real.pi / 2 - s.angleBragg energy - 0)) -
            Real.sin s._asymmetry_angle *
              Real.sin (Real.pi / 2 - s.angleBragg energy - 0)) = 1 from by
      linear_combination
        (Real.sin s._asymmetry_angle ^ 2 + Real.cos s._asymmetry_angle ^ 2) *
          Real.sin_sq_add_cos_sq (Real.pi / 2 - s.angleBragg energy - 0) +
        Real.sin_sq_add_cos_sq s._asymmetry_angle]
    exact Real.sqrt_one
  have hphoton :
      (Photon.make energy (s.incomingPhotonDirection energy 0)).unitDirectionVector =
        ⟨0,
          Real.cos s._asymmetry_angle *
              Real.sin (Real.pi / 2 - s.angleBragg energy - 0) -
            Real.sin s._asymmetry_angle *
              Real.cos (Real.pi / 2 - s.angleBragg energy - 0),
          -(Real.cos s._asymmetry_angle *
              Real.cos (Real.pi / 2 - s.angleBragg energy - 0)) -
            Real.sin s._asymmetry_angle *
              Real.sin (Real.pi / 2 - s.angleBragg energy - 0)⟩ := by
    rw [Photon.unitDirectionVector_make, hdir,
      getNormalizedVector_of_norm_one _ hdirnorm]
  have hangle :
      (⟨0,
        Real.cos s._asymmetry_angle *
            Real.sin (Real.pi / 2 - s.angleBragg energy - 0) -
          Real.sin s._asymmetry_angle *
            Real.cos (Real.pi / 2 - s.angleBragg energy - 0),
        -(Real.cos s._asymmetry_angle *
            Real.cos (Real.pi / 2 - s.angleBragg energy - 0)) -
          Real.sin s._asymmetry_angle *
            Real.sin (Real.pi / 2 - s.angleBragg energy - 0)⟩ : Vector).angle
        ⟨0, 2 * Real.pi / (s.dSpacing * 1e-10) * Real.sin s._asymmetry_angle,
          2 * Real.pi / (s.dSpacing * 1e-10) * Real.cos s._asymmetry_angle⟩ =
        Real.pi - (Real.pi / 2 - s.angleBragg energy - 0) := by
    unfold Vector.angle
    have hBHnorm :
        (⟨0, 2 * Real.pi / (s.dSpacing * 1e-10) * Real.sin s._asymmetry_angle,
          2 * Real.pi / (s.dSpacing * 1e-10) * Real.cos s._asymmetry_angle⟩ :
            Vector).norm = 2 * Real.pi / (s.dSpacing * 1e-10) := by
      rw [← hBH]
      exact norm_normalBragg_false s hd
    rw [hdirnorm, hBHnorm]
    rw [show
        (⟨0,
          Real.cos s._asymmetry_angle *
              Real.sin (Real.pi / 2 - s.angleBragg energy - 0) -
            Real.sin s._asymmetry_angle *
              Real.cos (Real.pi / 2 - s.angleBragg energy - 0),
          -(Real.cos s._asymmetry_angle *
              Real.cos (Real.pi / 2 - s.angleBragg energy - 0)) -
            Real.sin s._asymmetry_angle *
              Real.sin (Real.pi / 2 - s.angleBragg energy - 0)⟩ :
            Vector).scalarProduct
          ⟨0, 2 * Real.pi / (s.dSpacing * 1e-10) * Real.sin s._asymmetry_angle,
            2 * Real.pi / (s.dSpacing * 1e-10) * Real.cos s._asymmetry_angle⟩ =
          -(2 * Real.pi / (s.dSpacing * 1e-10) *
            Real.cos (Real.pi / 2 - s.angleBragg energy - 0)) from by
      unfold Vector.scalarProduct
      linear_combination
        -(2 * Real.pi / (s.dSpacing * 1e-10) *
            Real.cos (Real.pi / 2 - s.angleBragg energy - 0)) *
          Real.sin_sq_add_cos_sq s._asymmetry_angle]
    rw [show
        -(2 * Real.pi / (s.dSpacing * 1e-10) *
            Real.cos (Real.pi / 2 - s.angleBragg energy - 0)) /
          (1 * (2 * Real.pi / (s.dSpacing * 1e-10))) =
          -Real.cos (Real.pi / 2 - s.angleBragg energy - 0) from by
      rw [one_mul, neg_div, mul_comm, mul_div_assoc, div_self hg.ne', mul_one]]
    rw [min_eq_right
        (by linarith [Real.neg_one_le_cos (Real.pi / 2 - s.angleBragg energy - 0)]),
      max_eq_right
        (by linarith [Real.cos_le_one (Real.pi / 2 - s.angleBragg energy - 0)]),
      Real.arccos_neg, Real.arccos_cos (by linarith) (by linarith [Real.pi_pos])]
  simp only [DiffractionSetup.deviationOfIncomingPhoton]
  rw [hphoton, hBH, hangle, Photon.energy_make]
  ring

/-- Witness for the amended claim C1 at a concrete setup and energy. -/
theorem roundTrip_deviation_zero_witness :
    exampleSetup._azimuthal_angle = 0 ∧ 0 < exampleSetup.dSpacing ∧
    -(Real.pi / 2) ≤ exampleSetup.angleBragg 8000 ∧
    exampleSetup.angleBragg 8000 ≤ Real.pi / 2 ∧
    exampleSetup.deviationOfIncomingPhoton
      (Photon.make 8000 (exampleSetup.incomingPhotonDirection 8000 0)) = 0 :=
  ⟨rfl, show (0 : ℝ) < 1 by norm_num,
    show -(Real.pi / 2) ≤ (0 : ℝ) by linarith [Real.pi_pos],
    show (0 : ℝ) ≤ Real.pi / 2 by linarith [Real.pi_pos],
    roundTrip_deviation_zero exampleSetup 8000 rfl
      (show (0 : ℝ) < 1 by norm_num)
      (show -(Real.pi / 2) ≤ (0 : ℝ) by linarith [Real.pi_pos])
      (show (0 : ℝ) ≤ Real.pi / 2 by linarith [Real.pi_pos])⟩

end

end Crystalpy
